import Mathlib

/-
Verification of `create_template.py` (imscc-tools).

The program is a single function `create_template(output_dir)` that
scaffolds a course directory: it checks that the target does not exist and
that the fixed template tree exists, recursively copies the template to the
target, rewrites the `title` and `course_code` fields of `course.json` at
the target root (non-fatal on failure), and overwrites `README.md` with a
generated document.

The shallow embedding below models the filesystem as a map from paths
(lists of name components) to directory flags and file contents.  The
fallible effects of the program are passed in as explicit outcome
parameters: the recursive copy (`shutil.copytree`) either succeeds or
raises leaving an arbitrary partial state; JSON parsing (`json.load`)
either yields a JSON object or raises; the JSON write-back
(`open(...,'w')` + `json.dump`) either succeeds or raises leaving whatever
content the failed attempt produced (the file was truncated on open); the
README write (`Path.write_text`) either succeeds or raises.  Console
output is modelled as a list of abstract messages, one per print site.
-/

/-- A filesystem path, as a list of name components. -/
abbrev FPath := List String

/-- A filesystem: which paths are directories, and which paths are files
with what (string) content. -/
structure FS where
  isDir : FPath → Bool
  fileData : FPath → Option String

/-- Python `Path.exists()`: the path is a directory or a file. -/
def FS.existsPath (fs : FS) (p : FPath) : Bool :=
  fs.isDir p || (fs.fileData p).isSome

/-- Overwrite (or create) the file at `p` with content `c`. -/
def FS.writeFile (fs : FS) (p : FPath) (c : String) : FS :=
  { fs with fileData := fun q => if q = p then some c else fs.fileData q }

/-- Remove the prefix `pre` from `p`: `stripPre pre p = some r` iff
`p = pre ++ r`. -/
def stripPre : FPath → FPath → Option FPath
  | [], p => some p
  | _ :: _, [] => none
  | a :: pre, b :: p => if a = b then stripPre pre p else none

/-- Python `shutil.copytree(src, dst)` when it succeeds: every entry of the
subtree rooted at `src` appears under `dst` at the same relative path with
the same content; everything outside `dst` is unchanged. -/
def FS.copytree (fs : FS) (src dst : FPath) : FS where
  isDir p :=
    match stripPre dst p with
    | some r => fs.isDir (src ++ r)
    | none => fs.isDir p
  fileData p :=
    match stripPre dst p with
    | some r => fs.fileData (src ++ r)
    | none => fs.fileData p

mutual
/-- A JSON value, as produced by Python `json.load` (floats are not used by
this program's data and are omitted). -/
inductive JVal where
  | null
  | bool (b : Bool)
  | num (n : Int)
  | str (s : String)
  | arr (xs : JArr)
  | obj (kvs : JObj)
  deriving DecidableEq

/-- A JSON array (list of values). -/
inductive JArr where
  | nil
  | cons (v : JVal) (tl : JArr)
  deriving DecidableEq

/-- A JSON object: key/value pairs in insertion order, as in a Python
`dict`. -/
inductive JObj where
  | nil
  | cons (k : String) (v : JVal) (tl : JObj)
  deriving DecidableEq
end

/-- Python `dict` assignment `d[k] = v`: replace the value at the first
occurrence of `k` keeping its position, or append a new entry. -/
def setKey : JObj → String → JVal → JObj
  | .nil, k, v => .cons k v .nil
  | .cons k2 v2 tl, k, v =>
    if k2 = k then .cons k v tl else .cons k2 v2 (setKey tl k v)

/-- Python `dict` lookup `d[k]` (as an `Option`). -/
def lookupKey : JObj → String → Option JVal
  | .nil, _ => none
  | .cons k2 v2 tl, k => if k2 = k then some v2 else lookupKey tl k

/-- Lowercase hexadecimal digit, as used by Python's JSON encoder. -/
def hexDigit (n : Nat) : Char :=
  if n < 10 then Char.ofNat (48 + n) else Char.ofNat (87 + n)

/-- Four lowercase hexadecimal digits. -/
def hex4 (n : Nat) : String :=
  String.mk [hexDigit (n / 4096 % 16), hexDigit (n / 256 % 16),
             hexDigit (n / 16 % 16), hexDigit (n % 16)]

/-- A `\uXXXX` escape. -/
def uEsc (n : Nat) : String := "\\u" ++ hex4 n

/-- Escape one character the way Python's `json.dump` does with its default
`ensure_ascii=True`: short escapes for the common control characters, quote
and backslash; `\uXXXX` (with surrogate pairs beyond the BMP) for every
other character outside printable ASCII. -/
def escapeChar (c : Char) : String :=
  if c = '"' then "\\\""
  else if c = '\\' then "\\\\"
  else if c = '\n' then "\\n"
  else if c = '\t' then "\\t"
  else if c = '\r' then "\\r"
  else if c = Char.ofNat 8 then "\\b"
  else if c = Char.ofNat 12 then "\\f"
  else if c.toNat < 32 ∨ 126 < c.toNat then
    (if c.toNat < 65536 then uEsc c.toNat
     else uEsc (55296 + (c.toNat - 65536) / 1024) ++
          uEsc (56320 + (c.toNat - 65536) % 1024))
  else String.singleton c

/-- Serialize a string as a JSON string literal, Python style. -/
def pyJsonStr (s : String) : String :=
  "\"" ++ String.join (s.data.map escapeChar) ++ "\""

/-- The indentation produced by `json.dump(..., indent=2)` at nesting level
`lvl`: `2 * lvl` spaces. -/
def indentStr (lvl : Nat) : String := String.mk (List.replicate (2 * lvl) ' ')

mutual
/-- Serialize a JSON value the way `json.dump(v, f, indent=2)` does (default
separators `(',', ': ')`, `ensure_ascii=True`). -/
def dumpVal : Nat → JVal → String
  | _, .null => "null"
  | _, .bool true => "true"
  | _, .bool false => "false"
  | _, .num n => toString n
  | _, .str s => pyJsonStr s
  | _, .arr .nil => "[]"
  | lvl, .arr xs => "[\n" ++ dumpArrItems (lvl + 1) xs ++ "\n" ++ indentStr lvl ++ "]"
  | _, .obj .nil => "\x7b\x7d"
  | lvl, .obj kvs => "\x7b\n" ++ dumpObjItems (lvl + 1) kvs ++ "\n" ++ indentStr lvl ++ "\x7d"

/-- Serialize the items of a nonempty JSON array, one per line. -/
def dumpArrItems : Nat → JArr → String
  | _, .nil => ""
  | lvl, .cons x .nil => indentStr lvl ++ dumpVal lvl x
  | lvl, .cons x (.cons y xs) =>
    indentStr lvl ++ dumpVal lvl x ++ ",\n" ++ dumpArrItems lvl (.cons y xs)

/-- Serialize the items of a nonempty JSON object, one per line. -/
def dumpObjItems : Nat → JObj → String
  | _, .nil => ""
  | lvl, .cons k v .nil => indentStr lvl ++ pyJsonStr k ++ ": " ++ dumpVal lvl v
  | lvl, .cons k v (.cons k2 v2 kvs) =>
    indentStr lvl ++ pyJsonStr k ++ ": " ++ dumpVal lvl v ++ ",\n" ++
      dumpObjItems lvl (.cons k2 v2 kvs)
end

/-- Top-level `json.dump(v, f, indent=2)`. -/
def pyJsonDump (v : JVal) : String := dumpVal 0 v

/-- Python `s.replace(old, new)` for one-character patterns. -/
def pyReplaceChar (s : String) (old new : Char) : String :=
  String.mk (s.data.map fun c => if c = old then new else c)

/-- Body of Python `str.title()`: a cased character is titlecased when the
previous character is not cased, lowercased otherwise (ASCII: cased means
alphabetic).  The flag records whether the previous character was cased. -/
def pyTitleAux : Bool → List Char → List Char
  | _, [] => []
  | prevCased, c :: cs =>
    if c.isAlpha then
      (if prevCased then c.toLower else c.toUpper) :: pyTitleAux true cs
    else
      c :: pyTitleAux false cs

/-- Python `str.title()`. -/
def pyTitle (s : String) : String := String.mk (pyTitleAux false s.data)

/-- Python `str.upper()` (ASCII). -/
def pyUpper (s : String) : String := String.mk (s.data.map Char.toUpper)

/-- Source line 78, inner part: `output_dir.replace('-', ' ').replace('_', ' ')`. -/
def sepReplaced (s : String) : String :=
  pyReplaceChar (pyReplaceChar s '-' ' ') '_' ' '

/-- Source line 78: the display title
`output_dir.replace('-', ' ').replace('_', ' ').title()`. -/
def displayTitle (s : String) : String := pyTitle (sepReplaced s)

/-- Source line 79: the course code `output_dir.upper()`. -/
def courseCode (s : String) : String := pyUpper s

/-- Source lines 78-79: the parsed `course.json` object after
`course_data['title'] = ...` and `course_data['course_code'] = ...`. -/
def updatedCourseData (output_dir : String) (kvs : JObj) : JObj :=
  setKey (setKey kvs "title" (.str (displayTitle output_dir)))
    "course_code" (.str (courseCode output_dir))

/-- Modelled from the spec: title-casing in which "each whitespace-delimited
word's first letter is capitalized, remainder lowercased".  Used only to
compare the spec's stated rule with the code's `str.title()`.  The flag
records whether we are at the start of a word. -/
def specTitleCaseAux : Bool → List Char → List Char
  | _, [] => []
  | atStart, c :: cs =>
    if c.isWhitespace then c :: specTitleCaseAux true cs
    else (if atStart then c.toUpper else c.toLower) :: specTitleCaseAux false cs

/-- Modelled from the spec: whitespace-delimited title-case of a string. -/
def specTitleCase (s : String) : String := String.mk (specTitleCaseAux true s.data)

/-- Modelled from the spec: the display title as the spec's words describe
it (replace separators with spaces, then whitespace-delimited title-case). -/
def specDisplayTitle (s : String) : String := specTitleCase (sepReplaced s)
def readmePiece0 : String :=
  "# "

def readmePieceA : String :=
  "\n" ++
  "\n" ++
  "This Canvas course was created from the **canvas-course-template** with comprehensive CSS styling system.\n" ++
  "\n" ++
  "## 🎨 CSS Styling System\n" ++
  "\n" ++
  "This template includes a complete styling system for creating professional, visually appealing course content. All styles are defined in `css/canvas-course.css` and work seamlessly with Canvas LMS.\n" ++
  "\n" ++
  "### Available Components:\n" ++
  "\n" ++
  "**Info Boxes:**\n" ++
  "- `info-learning-goals` - Cyan box for learning objectives\n" ++
  "- `info-key-concept` - Indigo box for key concepts\n" ++
  "- `info-tip` - Yellow box for helpful tips\n" ++
  "- `info-note` - Orange box for important notes\n" ++
  "- `info-summary` - Gray box for summaries\n" ++
  "\n" ++
  "**Task Accordions:**\n" ++
  "- `task-practice` - Blue accordion for practice exercises\n" ++
  "- `task-portfolio` - Purple accordion for portfolio tasks\n" ++
  "- `task-quiz` - Teal/mint accordion for quiz tasks\n" ++
  "\n" ++
  "**Other Features:**\n" ++
  "- Canvas native tabs with color themes\n" ++
  "- Priority badges (MUST/SHOULD/COULD with MoSCoW method)\n" ++
  "- Good/bad example boxes with dashed borders\n" ++
  "- Styled tables and general accordions\n" ++
  "\n" ++
  "See the styling guide pages for complete examples and usage.\n" ++
  "\n" ++
  "## 📁 Folder Structure\n" ++
  "\n" ++
  "```\n"

def readmePieceB : String :=
  "/\n" ++
  "├── wiki_content/                # HTML pages for your course\n" ++
  "│   ├── welcome_TEMPLATE.html    # Home page with customizable banner\n" ++
  "│   ├── styling-guide-*_TEMPLATE.html  # Documentation pages\n" ++
  "│   └── ...\n" ++
  "├── css/\n" ++
  "│   └── canvas-course.css        # Complete styling system\n" ++
  "├── web_resources/               # Files (PDFs, images, documents)\n" ++
  "├── quizzes/                     # Quiz definitions (JSON)\n" ++
  "├── assignments/                 # Assignment definitions (JSON)\n" ++
  "├── rubrics/                     # Rubrics (JSON format)\n" ++
  "├── course.json                  # Course metadata\n" ++
  "├── modules.json                 # Module organization\n" ++
  "└── README.md                    # This file\n" ++
  "```\n" ++
  "\n" ++
  "## 🚀 Working Locally\n" ++
  "\n" ++
  "1. **Edit pages**: Open HTML files in `wiki_content/` with your favorite editor\n" ++
  "2. **Preview**: Open HTML files directly in your browser - all links and styles work locally!\n" ++
  "3. **Add files**: Place PDFs, images, etc. in `web_resources/`\n" ++
  "4. **Create content**: Add quizzes, assignments, and rubrics as JSON files\n" ++
  "5. **Organize**: Update `modules.json` to organize all content into modules\n" ++
  "\n" ++
  "## 📄 Page Metadata\n" ++
  "\n" ++
  "Each page can have metadata in HTML comments at the top:\n" ++
  "\n" ++
  "```html\n" ++
  "<!-- CANVAS_META\n" ++
  "title: My Page Title\n" ++
  "home: true\n" ++
  "-->\n" ++
  "```\n" ++
  "\n" ++
  "Supported metadata:\n" ++
  "- `title`: Page title (defaults to filename)\n" ++
  "- `home`: Set to `true` to make this the course home page\n" ++
  "\n" ++
  "## 🔗 Linking\n" ++
  "\n" ++
  "### Link to files:\n" ++
  "```html\n" ++
  "<a href=\"../web_resources/syllabus.pdf\">Syllabus</a>\n" ++
  "```\n" ++
  "\n" ++
  "### Link to other pages:\n" ++
  "```html\n" ++
  "<a href=\"lesson-1.html\">Go to Lesson 1</a>\n" ++
  "```\n" ++
  "\n" ++
  "These links work locally for preview. When you export to IMSCC, they\x27re automatically\n" ++
  "converted to Canvas format.\n" ++
  "\n" ++
  "## 📦 Export to IMSCC\n" ++
  "\n" ++
  "When ready to upload to Canvas:\n" ++
  "\n" ++
  "```bash\n" ++
  "python build_from_template.py "

def readmePieceC : String :=
  "\n" ++
  "```\n" ++
  "\n" ++
  "This will create an `.imscc` file that you can import into Canvas.\n" ++
  "\n" ++
  "## 🏷️ Template Files\n" ++
  "\n" ++
  "All example files are tagged with `_TEMPLATE` in their filenames for easy identification:\n" ++
  "\n" ++
  "- **Pages:** `welcome_TEMPLATE.html`, `styling-guide-*_TEMPLATE.html`\n" ++
  "- **Quizzes:** `*_TEMPLATE.json`\n" ++
  "- **Assignments:** `*_TEMPLATE.json` and `*_TEMPLATE.html`\n" ++
  "- **Rubrics:** `*_TEMPLATE.json`\n" ++
  "\n" ++
  "**To remove templates:** Delete all files containing `_TEMPLATE` when you\x27re ready to add your own content.\n" ++
  "\n" ++
  "## 📚 Next Steps\n" ++
  "\n" ++
  "1. Open `wiki_content/welcome_TEMPLATE.html` in your browser to see the template\n" ++
  "2. Review the styling guide pages to see all available CSS components\n" ++
  "3. Customize the welcome page banner with your course colors\n" ++
  "4. Replace template content with your own course materials\n" ++
  "5. Delete `_TEMPLATE` files when ready\n" ++
  "6. Build and import to Canvas\n" ++
  "\n" ++
  "For complete documentation, see the styling guide pages in `wiki_content/`.\n"


/-- Source lines 91-209: the README template.  The generated document is the
f-string literal with the display title interpolated after `# ` and
`output_dir` interpolated twice (in the folder-structure listing and in the
build command). -/
def readmeContent (output_dir : String) : String :=
  readmePiece0 ++ displayTitle output_dir ++ readmePieceA ++ output_dir ++
    readmePieceB ++ output_dir ++ readmePieceC

/-- One abstract console message per print site of `create_template`.
Consecutive prints of a single block (banner, structure listing, summary)
are folded into one message; messages that embed run-dependent data carry
it. -/
inductive Msg where
  | errAlreadyExists (dir : String)
  | errTemplateNotFound (tpl : FPath)
  | startBanner (dir : String) (tpl : FPath)
  | copyingFiles
  | errCopying (e : String)
  | copiedStructure
  | updatingCourseJson
  | updatedTitle (t : String)
  | updatedCode (c : String)
  | warnCourseJson (e : String)
  | updatingReadme
  | readmeWritten
  | successSummary (dir : String)
  deriving DecidableEq

/-- Outcome of `shutil.copytree`: success, or an exception with message `e`
leaving the filesystem in some partial state. -/
inductive CopyOutcome where
  | ok
  | fail (e : String) (partialFS : FS)

/-- Outcome of the `course.json` write-back (`open(...,'w')` + `json.dump`):
success, or an exception with message `e` leaving the file with content
`leftover` (the file was truncated when opened for writing, so a failed
write can leave partial content). -/
inductive JsonWriteOutcome where
  | ok
  | fail (e : String) (leftover : String)

/-- Result of a run: a returned boolean, or a propagated exception (the
README write is not guarded by any `try`), together with the final
filesystem and the console log. -/
inductive RunResult where
  | ret (b : Bool) (fs : FS) (log : List Msg)
  | exn (fs : FS) (log : List Msg)

/-- The returned value, `none` when an exception propagated. -/
def RunResult.retVal : RunResult → Option Bool
  | .ret b _ _ => some b
  | .exn _ _ => none

/-- The filesystem when the run ended. -/
def RunResult.finalFS : RunResult → FS
  | .ret _ fs _ => fs
  | .exn fs _ => fs

/-- The console log of the run. -/
def RunResult.msgs : RunResult → List Msg
  | .ret _ _ log => log
  | .exn _ log => log

/-- Source lines 69-87: the `course.json` update step.  If the file is
absent at the target root nothing happens (silently); otherwise its content
is parsed (`parse` models `json.load`, failing exactly when the content is
not a JSON object), the `title` and `course_code` fields are set, and the
result is written back with `json.dump(..., indent=2)`; any exception is
caught and reported as a warning.  Returns the new filesystem and the
messages printed by this step. -/
def courseJsonStep (parse : String → Except String JObj)
    (jsonW : JsonWriteOutcome) (output_dir : String) (output_path : FPath)
    (fs1 : FS) : FS × List Msg :=
  let course_json_path := output_path ++ ["course.json"]
  match fs1.fileData course_json_path with
  | none => (fs1, [])
  | some content =>
    match parse content with
    | .error e => (fs1, [.updatingCourseJson, .warnCourseJson e])
    | .ok course_data =>
      let course_data2 := updatedCourseData output_dir course_data
      match jsonW with
      | .ok =>
        (fs1.writeFile course_json_path (pyJsonDump (.obj course_data2)),
         [.updatingCourseJson, .updatedTitle (displayTitle output_dir),
          .updatedCode (courseCode output_dir)])
      | .fail e leftover =>
        (fs1.writeFile course_json_path leftover,
         [.updatingCourseJson, .warnCourseJson e])

/-- Source lines 29-244: `create_template(output_dir)`.  `cwd` is the
working directory against which the relative target path resolves,
`script_dir` the directory of the script (so the template lives at
`script_dir/canvas-course-template`); `output_dir` is taken to be a single
path component.  `parse`, `copyRes`, `jsonW` and `readmeOk` are the
outcomes of the four fallible effects (see their types). -/
def create_template (parse : String → Except String JObj)
    (copyRes : CopyOutcome) (jsonW : JsonWriteOutcome) (readmeOk : Bool)
    (cwd script_dir : FPath) (output_dir : String) (fs : FS) : RunResult :=
  let output_path := cwd ++ [output_dir]
  if fs.existsPath output_path then
    .ret false fs [.errAlreadyExists output_dir]
  else
    let template_source := script_dir ++ ["canvas-course-template"]
    if fs.existsPath template_source = false then
      .ret false fs [.errTemplateNotFound template_source]
    else
      match copyRes with
      | .fail e fsPartial =>
        .ret false fsPartial
          [.startBanner output_dir template_source, .copyingFiles, .errCopying e]
      | .ok =>
        let fs1 := fs.copytree template_source output_path
        let step := courseJsonStep parse jsonW output_dir output_path fs1
        let log1 := [Msg.startBanner output_dir template_source, .copyingFiles,
          .copiedStructure] ++ step.2 ++ [.updatingReadme]
        if readmeOk then
          .ret true
            (step.1.writeFile (output_path ++ ["README.md"]) (readmeContent output_dir))
            (log1 ++ [.readmeWritten, .successSummary output_dir])
        else
          .exn step.1 log1

/-- The per-character action of `str.title()` given whether the previous
character was cased. -/
def titleChar (prevCased : Bool) (c : Char) : Char :=
  if c.isAlpha then (if prevCased then c.toLower else c.toUpper) else c

/-- Whether the character before position `i` is cased (`b` at position 0,
used for the state in which a scan starts). -/
def prevCasedAt (b : Bool) (l : List Char) : Nat → Bool
  | 0 => b
  | j + 1 => (l[j]?.elim false Char.isAlpha)

/-- `small` occurs in `big` as a contiguous substring. -/
def strInfix (small big : String) : Prop :=
  ∃ u v, big.data = u ++ small.data ++ v

/-- Concrete fixture: a filesystem holding the template tree
`canvas-course-template` with a `course.json` (content `"CJ"`), a page under
`wiki_content` and a `README.md`. -/
def testFS : FS where
  isDir p := p == ["canvas-course-template"] || p == ["canvas-course-template", "wiki_content"]
  fileData p :=
    if p = ["canvas-course-template", "course.json"] then some "CJ"
    else if p = ["canvas-course-template", "wiki_content", "welcome.html"] then some "<html>"
    else if p = ["canvas-course-template", "README.md"] then some "template readme"
    else none

/-- Concrete fixture: the object `\x7b"title": "old", "other": 3\x7d`. -/
def testObj : JObj := .cons "title" (.str "old") (.cons "other" (.num 3) .nil)

/-- Concrete fixture: a parse oracle that parses the content `"CJ"` as
`testObj` and rejects anything else. -/
def testParse : String → Except String JObj :=
  fun s => if s = "CJ" then .ok testObj else .error "bad json"

/-- Concrete fixture: like `testFS`, but the `course.json` content is
malformed (`testParse` rejects it). -/
def testFSBad : FS where
  isDir p := p == ["canvas-course-template"]
  fileData p := if p = ["canvas-course-template", "course.json"] then some "not json" else none

/-- Concrete fixture: the template exists and the target name `my-course`
is already taken by a directory. -/
def testFSTaken : FS where
  isDir p := p == ["canvas-course-template"] || p == ["my-course"]
  fileData p := if p = ["canvas-course-template", "course.json"] then some "CJ" else none

/-- Concrete fixture: an empty filesystem (in particular, no template). -/
def testFSEmpty : FS where
  isDir _ := false
  fileData _ := none

/-! Helper lemmas about the filesystem model. -/

theorem stripPre_append : (pre r : FPath) → stripPre pre (pre ++ r) = some r
  | [], _ => rfl
  | a :: pre, r => by simp [stripPre, stripPre_append pre r]

theorem FS.copytree_fileData (fs : FS) (src dst r : FPath) :
    (fs.copytree src dst).fileData (dst ++ r) = fs.fileData (src ++ r) := by
  simp [FS.copytree, stripPre_append]

theorem FS.copytree_isDir (fs : FS) (src dst r : FPath) :
    (fs.copytree src dst).isDir (dst ++ r) = fs.isDir (src ++ r) := by
  simp [FS.copytree, stripPre_append]

theorem FS.writeFile_isDir (fs : FS) (p : FPath) (c : String) :
    (fs.writeFile p c).isDir = fs.isDir := rfl

theorem FS.writeFile_fileData_self (fs : FS) (p : FPath) (c : String) :
    (fs.writeFile p c).fileData p = some c := by
  simp [FS.writeFile]

theorem FS.writeFile_fileData_ne (fs : FS) (p q : FPath) (c : String)
    (h : q ≠ p) : (fs.writeFile p c).fileData q = fs.fileData q := by
  simp [FS.writeFile, h]

theorem append_ne_append_right (p : FPath) {r s : FPath} (h : r ≠ s) :
    p ++ r ≠ p ++ s := fun hc => h (List.append_cancel_left hc)

/-! Helper lemmas about JSON objects. -/

theorem lookupKey_setKey_self : (o : JObj) → (k : String) → (v : JVal) →
    lookupKey (setKey o k v) k = some v
  | .nil, k, v => by simp [setKey, lookupKey]
  | .cons k2 v2 tl, k, v => by
    by_cases h : k2 = k <;>
      simp [setKey, lookupKey, h, lookupKey_setKey_self tl k v]

theorem lookupKey_setKey_ne : (o : JObj) → (k k' : String) → (v : JVal) →
    k ≠ k' → lookupKey (setKey o k v) k' = lookupKey o k'
  | .nil, k, k', v, h => by simp [setKey, lookupKey, h]
  | .cons k2 v2 tl, k, k', v, h => by
    by_cases h2 : k2 = k <;>
      simp [setKey, lookupKey, h2, h, lookupKey_setKey_ne tl k k' v h]

/-! Helper lemmas about the course.json step. -/

theorem courseJsonStep_isDir (parse : String → Except String JObj)
    (jsonW : JsonWriteOutcome) (t : String) (op : FPath) (fs1 : FS) :
    (courseJsonStep parse jsonW t op fs1).1.isDir = fs1.isDir := by
  cases hfd : fs1.fileData (op ++ ["course.json"]) with
  | none => simp [courseJsonStep, hfd]
  | some c =>
    cases hp : parse c with
    | error e => simp [courseJsonStep, hfd, hp]
    | ok kvs => cases jsonW <;> simp [courseJsonStep, hfd, hp, FS.writeFile]

theorem courseJsonStep_fileData_ne (parse : String → Except String JObj)
    (jsonW : JsonWriteOutcome) (t : String) (op : FPath) (fs1 : FS)
    (q : FPath) (hq : q ≠ op ++ ["course.json"]) :
    (courseJsonStep parse jsonW t op fs1).1.fileData q = fs1.fileData q := by
  cases hfd : fs1.fileData (op ++ ["course.json"]) with
  | none => simp [courseJsonStep, hfd]
  | some c =>
    cases hp : parse c with
    | error e => simp [courseJsonStep, hfd, hp]
    | ok kvs =>
      cases jsonW <;> simp [courseJsonStep, hfd, hp, FS.writeFile, hq]

/-! Reduction lemmas for `create_template`, one per branch of the control
flow. -/

theorem create_template_target_exists (parse : String → Except String JObj)
    (copyRes : CopyOutcome) (jsonW : JsonWriteOutcome) (readmeOk : Bool)
    (cwd sd : FPath) (t : String) (fs : FS)
    (h : fs.existsPath (cwd ++ [t]) = true) :
    create_template parse copyRes jsonW readmeOk cwd sd t fs =
      .ret false fs [.errAlreadyExists t] := by
  simp [create_template, h]

theorem create_template_tpl_missing (parse : String → Except String JObj)
    (copyRes : CopyOutcome) (jsonW : JsonWriteOutcome) (readmeOk : Bool)
    (cwd sd : FPath) (t : String) (fs : FS)
    (h1 : fs.existsPath (cwd ++ [t]) = false)
    (h2 : fs.existsPath (sd ++ ["canvas-course-template"]) = false) :
    create_template parse copyRes jsonW readmeOk cwd sd t fs =
      .ret false fs [.errTemplateNotFound (sd ++ ["canvas-course-template"])] := by
  simp [create_template, h1, h2]

theorem create_template_copy_fail (parse : String → Except String JObj)
    (jsonW : JsonWriteOutcome) (readmeOk : Bool)
    (cwd sd : FPath) (t : String) (fs : FS) (e : String) (fsPartial : FS)
    (h1 : fs.existsPath (cwd ++ [t]) = false)
    (h2 : fs.existsPath (sd ++ ["canvas-course-template"]) = true) :
    create_template parse (.fail e fsPartial) jsonW readmeOk cwd sd t fs =
      .ret false fsPartial
        [.startBanner t (sd ++ ["canvas-course-template"]), .copyingFiles,
         .errCopying e] := by
  simp [create_template, h1, h2]

theorem create_template_ok_readme (parse : String → Except String JObj)
    (jsonW : JsonWriteOutcome) (cwd sd : FPath) (t : String) (fs : FS)
    (h1 : fs.existsPath (cwd ++ [t]) = false)
    (h2 : fs.existsPath (sd ++ ["canvas-course-template"]) = true) :
    create_template parse .ok jsonW true cwd sd t fs =
      .ret true
        ((courseJsonStep parse jsonW t (cwd ++ [t])
            (fs.copytree (sd ++ ["canvas-course-template"]) (cwd ++ [t]))).1.writeFile
          ((cwd ++ [t]) ++ ["README.md"]) (readmeContent t))
        ([Msg.startBanner t (sd ++ ["canvas-course-template"]), .copyingFiles,
            .copiedStructure] ++
          (courseJsonStep parse jsonW t (cwd ++ [t])
            (fs.copytree (sd ++ ["canvas-course-template"]) (cwd ++ [t]))).2 ++
          [.updatingReadme] ++ [.readmeWritten, .successSummary t]) := by
  simp [create_template, h1, h2]

theorem create_template_ok_noreadme (parse : String → Except String JObj)
    (jsonW : JsonWriteOutcome) (cwd sd : FPath) (t : String) (fs : FS)
    (h1 : fs.existsPath (cwd ++ [t]) = false)
    (h2 : fs.existsPath (sd ++ ["canvas-course-template"]) = true) :
    create_template parse .ok jsonW false cwd sd t fs =
      .exn
        (courseJsonStep parse jsonW t (cwd ++ [t])
          (fs.copytree (sd ++ ["canvas-course-template"]) (cwd ++ [t]))).1
        ([Msg.startBanner t (sd ++ ["canvas-course-template"]), .copyingFiles,
            .copiedStructure] ++
          (courseJsonStep parse jsonW t (cwd ++ [t])
            (fs.copytree (sd ++ ["canvas-course-template"]) (cwd ++ [t]))).2 ++
          [.updatingReadme]) := by
  simp [create_template, h1, h2]

/-! Helper lemma characterizing `str.title()` positionally. -/

theorem pyTitleAux_getElem (l : List Char) : (b : Bool) → (i : Nat) →
    (pyTitleAux b l)[i]? = (l[i]?).map (titleChar (prevCasedAt b l i)) := by
  induction l with
  | nil => intro b i; simp [pyTitleAux]
  | cons c cs ih =>
    intro b i
    cases i with
    | zero =>
      by_cases h : c.isAlpha <;> simp [pyTitleAux, titleChar, prevCasedAt, h]
    | succ j =>
      by_cases h : c.isAlpha <;>
        simp [pyTitleAux, h, ih, prevCasedAt] <;>
        cases j <;> simp [prevCasedAt, h]

/-! Helper lemmas characterizing the returned boolean. -/

theorem create_template_retVal_true_iff (parse : String → Except String JObj)
    (copyRes : CopyOutcome) (jsonW : JsonWriteOutcome) (readmeOk : Bool)
    (cwd sd : FPath) (t : String) (fs : FS) :
    (create_template parse copyRes jsonW readmeOk cwd sd t fs).retVal = some true ↔
      (fs.existsPath (cwd ++ [t]) = false ∧
       fs.existsPath (sd ++ ["canvas-course-template"]) = true ∧
       copyRes = CopyOutcome.ok ∧ readmeOk = true) := by
  cases h1 : fs.existsPath (cwd ++ [t]) with
  | true => simp [create_template_target_exists _ _ _ _ _ _ _ _ h1, RunResult.retVal]
  | false =>
    cases h2 : fs.existsPath (sd ++ ["canvas-course-template"]) with
    | false => simp [create_template_tpl_missing _ _ _ _ _ _ _ _ h1 h2, RunResult.retVal]
    | true =>
      cases copyRes with
      | fail e fsP =>
        simp [create_template_copy_fail _ _ _ _ _ _ _ _ _ h1 h2, RunResult.retVal]
      | ok =>
        cases readmeOk with
        | true => simp [create_template_ok_readme _ _ _ _ _ _ h1 h2, RunResult.retVal]
        | false => simp [create_template_ok_noreadme _ _ _ _ _ _ h1 h2, RunResult.retVal]

theorem create_template_retVal_false_iff (parse : String → Except String JObj)
    (copyRes : CopyOutcome) (jsonW : JsonWriteOutcome) (readmeOk : Bool)
    (cwd sd : FPath) (t : String) (fs : FS) :
    (create_template parse copyRes jsonW readmeOk cwd sd t fs).retVal = some false ↔
      (fs.existsPath (cwd ++ [t]) = true ∨
       fs.existsPath (sd ++ ["canvas-course-template"]) = false ∨
       copyRes ≠ CopyOutcome.ok) := by
  cases h1 : fs.existsPath (cwd ++ [t]) with
  | true => simp [create_template_target_exists _ _ _ _ _ _ _ _ h1, RunResult.retVal]
  | false =>
    cases h2 : fs.existsPath (sd ++ ["canvas-course-template"]) with
    | false => simp [create_template_tpl_missing _ _ _ _ _ _ _ _ h1 h2, RunResult.retVal]
    | true =>
      cases copyRes with
      | fail e fsP =>
        simp [create_template_copy_fail _ _ _ _ _ _ _ _ _ h1 h2, RunResult.retVal]
      | ok =>
        cases readmeOk with
        | true => simp [create_template_ok_readme _ _ _ _ _ _ h1 h2, RunResult.retVal]
        | false => simp [create_template_ok_noreadme _ _ _ _ _ _ h1 h2, RunResult.retVal]

/-! Claim theorems. -/

/-- Claim C2: for every targetName, if the target path already exists (as a
file or directory) or the template source tree is missing, `create_template`
returns `false` and performs no filesystem mutation: the final filesystem is
exactly the initial one (nothing copied, no target directory created, an
existing target untouched). -/
theorem claim2_precondition_failure_no_mutation
    (parse : String → Except String JObj) (copyRes : CopyOutcome)
    (jsonW : JsonWriteOutcome) (readmeOk : Bool) (cwd sd : FPath) (t : String)
    (fs : FS)
    (h : fs.existsPath (cwd ++ [t]) = true ∨
         fs.existsPath (sd ++ ["canvas-course-template"]) = false) :
    (create_template parse copyRes jsonW readmeOk cwd sd t fs).retVal = some false ∧
    (create_template parse copyRes jsonW readmeOk cwd sd t fs).finalFS = fs := by
  cases h1 : fs.existsPath (cwd ++ [t]) with
  | true =>
    simp [create_template_target_exists _ _ _ _ _ _ _ _ h1,
      RunResult.retVal, RunResult.finalFS]
  | false =>
    rcases h with h | h
    · exact absurd h (by simp [h1])
    · simp [create_template_tpl_missing _ _ _ _ _ _ _ _ h1 h,
        RunResult.retVal, RunResult.finalFS]

/-- Witness for C2: a concrete run whose target name is already taken. -/
theorem claim2_witness :
    (create_template testParse .ok .ok true [] [] "my-course" testFSTaken).retVal =
      some false ∧
    (create_template testParse .ok .ok true [] [] "my-course" testFSTaken).finalFS =
      testFSTaken :=
  claim2_precondition_failure_no_mutation testParse .ok .ok true [] [] "my-course"
    testFSTaken (Or.inl (by decide))

/-- Claim C3 counterexample: a concrete run in which the directory-existence
precondition holds, the template exists and the copy step succeeds, and yet
`create_template` does not return `true` (and does not return `false`
either): the unguarded README write raised, so no value was returned at all.
This refutes the claim's "returns true if the directory-existence
precondition and the copy step both succeed". -/
theorem claim3_counterexample :
    testFS.existsPath ["new-course"] = false ∧
    testFS.existsPath ["canvas-course-template"] = true ∧
    (create_template testParse .ok .ok false [] [] "new-course" testFS).retVal ≠
      some true ∧
    (create_template testParse .ok .ok false [] [] "new-course" testFS).retVal ≠
      some false := by
  refine ⟨by decide, by decide, by decide, by decide⟩

/-- Claim C3 (amended): `create_template` returns `true` exactly when the
directory-existence precondition, the template-existence check, the copy
step and the README write all succeed (the `course.json` rewrite outcome
`jsonW` is irrelevant); it returns `false` exactly when the precondition
fails, the template is missing, or the copy step raises; when the README
write raises it returns nothing at all. -/
theorem claim3_return_value_characterization
    (parse : String → Except String JObj) (copyRes : CopyOutcome)
    (jsonW : JsonWriteOutcome) (readmeOk : Bool) (cwd sd : FPath) (t : String)
    (fs : FS) :
    ((create_template parse copyRes jsonW readmeOk cwd sd t fs).retVal = some true ↔
      (fs.existsPath (cwd ++ [t]) = false ∧
       fs.existsPath (sd ++ ["canvas-course-template"]) = true ∧
       copyRes = CopyOutcome.ok ∧ readmeOk = true)) ∧
    ((create_template parse copyRes jsonW readmeOk cwd sd t fs).retVal = some false ↔
      (fs.existsPath (cwd ++ [t]) = true ∨
       fs.existsPath (sd ++ ["canvas-course-template"]) = false ∨
       copyRes ≠ CopyOutcome.ok)) :=
  ⟨create_template_retVal_true_iff parse copyRes jsonW readmeOk cwd sd t fs,
   create_template_retVal_false_iff parse copyRes jsonW readmeOk cwd sd t fs⟩

/-- Claim C8: when the preconditions pass and the copy step fails with error
`e` leaving the partial state `fsPartial`, `create_template` reports the
underlying failure, returns `false`, and the final filesystem is exactly
the partial state: no rollback or cleanup is performed. -/
theorem claim8_copy_failure_no_rollback
    (parse : String → Except String JObj) (jsonW : JsonWriteOutcome)
    (readmeOk : Bool) (cwd sd : FPath) (t : String) (fs : FS) (e : String)
    (fsPartial : FS)
    (h1 : fs.existsPath (cwd ++ [t]) = false)
    (h2 : fs.existsPath (sd ++ ["canvas-course-template"]) = true) :
    create_template parse (.fail e fsPartial) jsonW readmeOk cwd sd t fs =
      .ret false fsPartial
        [.startBanner t (sd ++ ["canvas-course-template"]), .copyingFiles,
         .errCopying e] ∧
    Msg.errCopying e ∈
      (create_template parse (.fail e fsPartial) jsonW readmeOk cwd sd t fs).msgs := by
  have h := create_template_copy_fail parse jsonW readmeOk cwd sd t fs e fsPartial h1 h2
  exact ⟨h, by rw [h]; simp [RunResult.msgs]⟩

/-- Witness for C8: a concrete run whose copy step fails. -/
theorem claim8_witness :
    create_template testParse (.fail "io error" testFSEmpty) .ok true [] []
        "new-course" testFS =
      .ret false testFSEmpty
        [.startBanner "new-course" ["canvas-course-template"], .copyingFiles,
         .errCopying "io error"] ∧
    Msg.errCopying "io error" ∈
      (create_template testParse (.fail "io error" testFSEmpty) .ok true [] []
        "new-course" testFS).msgs :=
  claim8_copy_failure_no_rollback testParse .ok true [] [] "new-course" testFS
    "io error" testFSEmpty (by decide) (by decide)

/-- Claim C10: the README write is not guarded: when a run reaches the README
step (preconditions passed, copy succeeded) and writing `README.md` raises,
the exception propagates out of `create_template`, so it returns neither
`true` nor `false`, while the state at that point — the copied tree with
whatever the `course.json` step already did to it — remains in place
untouched. -/
theorem claim10_readme_write_unguarded
    (parse : String → Except String JObj) (jsonW : JsonWriteOutcome)
    (cwd sd : FPath) (t : String) (fs : FS)
    (h1 : fs.existsPath (cwd ++ [t]) = false)
    (h2 : fs.existsPath (sd ++ ["canvas-course-template"]) = true) :
    create_template parse .ok jsonW false cwd sd t fs =
      .exn
        (courseJsonStep parse jsonW t (cwd ++ [t])
          (fs.copytree (sd ++ ["canvas-course-template"]) (cwd ++ [t]))).1
        ([Msg.startBanner t (sd ++ ["canvas-course-template"]), .copyingFiles,
            .copiedStructure] ++
          (courseJsonStep parse jsonW t (cwd ++ [t])
            (fs.copytree (sd ++ ["canvas-course-template"]) (cwd ++ [t]))).2 ++
          [.updatingReadme]) ∧
    (create_template parse .ok jsonW false cwd sd t fs).retVal = none := by
  have h := create_template_ok_noreadme parse jsonW cwd sd t fs h1 h2
  exact ⟨h, by rw [h]; rfl⟩

/-- Witness for C10: a concrete run whose README write raises. -/
theorem claim10_witness :
    (create_template testParse .ok .ok false [] [] "new-course" testFS).retVal = none :=
  (claim10_readme_write_unguarded testParse .ok [] [] "new-course" testFS
    (by decide) (by decide)).2

/-- Helper: the content of `course.json` at the target root after the
`course.json` step, by cases on what the step found and did. -/
theorem courseJsonStep_fileData_cj (parse : String → Except String JObj)
    (jsonW : JsonWriteOutcome) (t : String) (op : FPath) (fs1 : FS) :
    (courseJsonStep parse jsonW t op fs1).1.fileData (op ++ ["course.json"]) =
      match fs1.fileData (op ++ ["course.json"]) with
      | none => none
      | some c =>
        match parse c with
        | .error _ => some c
        | .ok kvs =>
          match jsonW with
          | .ok => some (pyJsonDump (.obj (updatedCourseData t kvs)))
          | .fail _ leftover => some leftover := by
  cases hfd : fs1.fileData (op ++ ["course.json"]) with
  | none => simp [courseJsonStep, hfd]
  | some c =>
    cases hp : parse c with
    | error e => simp [courseJsonStep, hfd, hp]
    | ok kvs => cases jsonW <;> simp [courseJsonStep, hfd, hp, FS.writeFile]

/-- Claim C1: for every targetName whose target path does not exist, when the
template source tree exists (as a directory) and the run returns `true`, the
final filesystem has the target directory, every relative path other than
`course.json` and `README.md` holds a file under the target exactly when it
holds one under the template, with byte-identical content; `course.json`
exists under the target exactly when it exists under the template (its
content is settled by C6/C7); and `README.md` holds the generated document. -/
theorem claim1_success_matches_template
    (parse : String → Except String JObj) (copyRes : CopyOutcome)
    (jsonW : JsonWriteOutcome) (readmeOk : Bool) (cwd sd : FPath) (t : String)
    (fs : FS)
    (h0 : fs.existsPath (cwd ++ [t]) = false)
    (htpl : fs.isDir (sd ++ ["canvas-course-template"]) = true)
    (hret : (create_template parse copyRes jsonW readmeOk cwd sd t fs).retVal =
      some true) :
    (create_template parse copyRes jsonW readmeOk cwd sd t fs).finalFS.isDir
        (cwd ++ [t]) = true ∧
    (∀ r : FPath, r ≠ ["course.json"] → r ≠ ["README.md"] →
      (create_template parse copyRes jsonW readmeOk cwd sd t fs).finalFS.fileData
          ((cwd ++ [t]) ++ r) =
        fs.fileData ((sd ++ ["canvas-course-template"]) ++ r)) ∧
    ((create_template parse copyRes jsonW readmeOk cwd sd t fs).finalFS.fileData
        ((cwd ++ [t]) ++ ["course.json"])).isSome =
      (fs.fileData ((sd ++ ["canvas-course-template"]) ++ ["course.json"])).isSome ∧
    (create_template parse copyRes jsonW readmeOk cwd sd t fs).finalFS.fileData
        ((cwd ++ [t]) ++ ["README.md"]) = some (readmeContent t) := by
  obtain ⟨h1, h2, hcopy, hreadme⟩ :=
    (create_template_retVal_true_iff parse copyRes jsonW readmeOk cwd sd t fs).mp hret
  subst hcopy
  subst hreadme
  rw [create_template_ok_readme parse jsonW cwd sd t fs h1 h2]
  simp only [RunResult.finalFS]
  refine ⟨?_, ?_, ?_, ?_⟩
  · rw [show ((courseJsonStep parse jsonW t (cwd ++ [t])
        (fs.copytree (sd ++ ["canvas-course-template"]) (cwd ++ [t]))).1.writeFile
        ((cwd ++ [t]) ++ ["README.md"]) (readmeContent t)).isDir =
        (courseJsonStep parse jsonW t (cwd ++ [t])
          (fs.copytree (sd ++ ["canvas-course-template"]) (cwd ++ [t]))).1.isDir
      from rfl]
    rw [courseJsonStep_isDir]
    have hc := FS.copytree_isDir fs (sd ++ ["canvas-course-template"]) (cwd ++ [t]) []
    simpa [htpl] using hc
  · intro r hcj hrm
    rw [FS.writeFile_fileData_ne _ _ _ _ (append_ne_append_right (cwd ++ [t]) hrm)]
    rw [courseJsonStep_fileData_ne _ _ _ _ _ _ (append_ne_append_right (cwd ++ [t]) hcj)]
    exact FS.copytree_fileData fs (sd ++ ["canvas-course-template"]) (cwd ++ [t]) r
  · rw [FS.writeFile_fileData_ne _ _ _ _
      (append_ne_append_right (cwd ++ [t]) (by decide))]
    rw [courseJsonStep_fileData_cj]
    rw [FS.copytree_fileData fs (sd ++ ["canvas-course-template"]) (cwd ++ [t])
      ["course.json"]]
    cases hfd : fs.fileData ((sd ++ ["canvas-course-template"]) ++ ["course.json"]) with
    | none => rfl
    | some c =>
      cases hp : parse c with
      | error e => simp [hp]
      | ok kvs => cases jsonW <;> simp [hp]
  · exact FS.writeFile_fileData_self _ _ _

/-- Witness for C1: a concrete successful run, checked on the target
directory flag, one copied page and the generated README. -/
theorem claim1_witness :
    (create_template testParse .ok .ok true [] [] "new-course" testFS).finalFS.isDir
        ["new-course"] = true ∧
    (create_template testParse .ok .ok true [] [] "new-course" testFS).finalFS.fileData
        ["new-course", "wiki_content", "welcome.html"] = some "<html>" ∧
    (create_template testParse .ok .ok true [] [] "new-course" testFS).finalFS.fileData
        ["new-course", "README.md"] = some (readmeContent "new-course") := by
  have h := claim1_success_matches_template testParse .ok .ok true [] [] "new-course"
    testFS (by decide) (by decide) (by decide)
  refine ⟨h.1, ?_, h.2.2.2⟩
  have h2 := h.2.1 ["wiki_content", "welcome.html"] (by decide) (by decide)
  exact h2.trans (by decide)

/-- Claim C6: when `course.json` is present in the template (hence, after the
copy, at the target root) and parses as a JSON object, the rewritten file is
exactly the `json.dump(..., indent=2)` serialization of the object with its
`title` and `course_code` fields set to the computed display title and
course code; every other field keeps its original value (and its position,
as `updatedCourseData` only touches the two named keys). -/
theorem claim6_course_json_rewrite
    (parse : String → Except String JObj) (cwd sd : FPath) (t : String)
    (fs : FS) (c : String) (kvs : JObj)
    (h1 : fs.existsPath (cwd ++ [t]) = false)
    (h2 : fs.existsPath (sd ++ ["canvas-course-template"]) = true)
    (hfd : fs.fileData ((sd ++ ["canvas-course-template"]) ++ ["course.json"]) =
      some c)
    (hp : parse c = .ok kvs) :
    (create_template parse .ok .ok true cwd sd t fs).finalFS.fileData
        ((cwd ++ [t]) ++ ["course.json"]) =
      some (pyJsonDump (.obj (updatedCourseData t kvs))) ∧
    lookupKey (updatedCourseData t kvs) "title" =
      some (.str (displayTitle t)) ∧
    lookupKey (updatedCourseData t kvs) "course_code" =
      some (.str (courseCode t)) ∧
    (∀ k, k ≠ "title" → k ≠ "course_code" →
      lookupKey (updatedCourseData t kvs) k = lookupKey kvs k) := by
  refine ⟨?_, ?_, ?_, ?_⟩
  · rw [create_template_ok_readme parse .ok cwd sd t fs h1 h2]
    simp only [RunResult.finalFS]
    rw [FS.writeFile_fileData_ne _ _ _ _
      (append_ne_append_right (cwd ++ [t]) (by decide))]
    rw [courseJsonStep_fileData_cj]
    rw [FS.copytree_fileData fs (sd ++ ["canvas-course-template"]) (cwd ++ [t])
      ["course.json"]]
    rw [hfd]
    simp [hp]
  · unfold updatedCourseData
    rw [lookupKey_setKey_ne _ _ _ _ (by decide)]
    exact lookupKey_setKey_self _ _ _
  · exact lookupKey_setKey_self _ _ _
  · intro k hkt hkc
    unfold updatedCourseData
    rw [lookupKey_setKey_ne _ _ _ _ (Ne.symm hkc)]
    exact lookupKey_setKey_ne _ _ _ _ (Ne.symm hkt)

/-- Witness for C6: a concrete run on `testFS`, whose template `course.json`
parses as `testObj`; the rewrite and the frame condition on the key
`"other"` are checked. -/
theorem claim6_witness :
    (create_template testParse .ok .ok true [] [] "new-course" testFS).finalFS.fileData
        ["new-course", "course.json"] =
      some (pyJsonDump (.obj (updatedCourseData "new-course" testObj))) ∧
    lookupKey (updatedCourseData "new-course" testObj) "title" =
      some (.str (displayTitle "new-course")) ∧
    lookupKey (updatedCourseData "new-course" testObj) "course_code" =
      some (.str (courseCode "new-course")) ∧
    lookupKey (updatedCourseData "new-course" testObj) "other" =
      lookupKey testObj "other" := by
  have h := claim6_course_json_rewrite testParse [] [] "new-course" testFS "CJ"
    testObj (by decide) (by decide) (by decide) rfl
  exact ⟨h.1, h.2.1, h.2.2.1, h.2.2.2 "other" (by decide) (by decide)⟩

/-- Claim C7 counterexample: a concrete run in which the `course.json`
write-back fails after the file was truncated.  The run still returns
`true` and reports a warning, but `course.json` does not "remain exactly as
copied from the template": it is left empty while the template content was
`"CJ"`.  This refutes the claim's "(or parsing/writing otherwise fails) ...
course.json remains exactly as copied". -/
theorem claim7_counterexample :
    (create_template testParse .ok (.fail "disk full" "") true [] [] "new-course"
      testFS).retVal = some true ∧
    testFS.fileData ["canvas-course-template", "course.json"] = some "CJ" ∧
    (create_template testParse .ok (.fail "disk full" "") true [] [] "new-course"
      testFS).finalFS.fileData ["new-course", "course.json"] = some "" ∧
    Msg.warnCourseJson "disk full" ∈
      (create_template testParse .ok (.fail "disk full" "") true [] [] "new-course"
        testFS).msgs ∧
    (create_template testParse .ok (.fail "disk full" "") true [] [] "new-course"
        testFS).finalFS.fileData ["new-course", "course.json"] ≠
      testFS.fileData ["canvas-course-template", "course.json"] := by
  refine ⟨by decide, by decide, by decide, by decide, by decide⟩

/-- Claim C7 (amended): in a run that passes the preconditions and whose copy
and README steps succeed: if `course.json` is absent from the template the
rewrite step is skipped silently (the run is exactly the copy followed by
the README write, with no course-json message); if `course.json` is present
but malformed, a warning naming the parse error is reported, `course.json`
remains exactly as copied, the README step still runs and the run returns
`true`; if it parses but the write-back fails, a warning is reported and the
run still returns `true` with the README written, but `course.json` is left
with whatever content the failed write produced. -/
theorem claim7_rewrite_failure_behavior
    (parse : String → Except String JObj) (jsonW : JsonWriteOutcome)
    (cwd sd : FPath) (t : String) (fs : FS)
    (h1 : fs.existsPath (cwd ++ [t]) = false)
    (h2 : fs.existsPath (sd ++ ["canvas-course-template"]) = true) :
    (fs.fileData ((sd ++ ["canvas-course-template"]) ++ ["course.json"]) = none →
      create_template parse .ok jsonW true cwd sd t fs =
        .ret true
          ((fs.copytree (sd ++ ["canvas-course-template"]) (cwd ++ [t])).writeFile
            ((cwd ++ [t]) ++ ["README.md"]) (readmeContent t))
          [.startBanner t (sd ++ ["canvas-course-template"]), .copyingFiles,
           .copiedStructure, .updatingReadme, .readmeWritten, .successSummary t]) ∧
    (∀ c e,
      fs.fileData ((sd ++ ["canvas-course-template"]) ++ ["course.json"]) = some c →
      parse c = .error e →
      (create_template parse .ok jsonW true cwd sd t fs).retVal = some true ∧
      (create_template parse .ok jsonW true cwd sd t fs).finalFS.fileData
          ((cwd ++ [t]) ++ ["course.json"]) = some c ∧
      (create_template parse .ok jsonW true cwd sd t fs).finalFS.fileData
          ((cwd ++ [t]) ++ ["README.md"]) = some (readmeContent t) ∧
      Msg.warnCourseJson e ∈ (create_template parse .ok jsonW true cwd sd t fs).msgs) ∧
    (∀ c kvs e leftover,
      fs.fileData ((sd ++ ["canvas-course-template"]) ++ ["course.json"]) = some c →
      parse c = .ok kvs → jsonW = .fail e leftover →
      (create_template parse .ok jsonW true cwd sd t fs).retVal = some true ∧
      (create_template parse .ok jsonW true cwd sd t fs).finalFS.fileData
          ((cwd ++ [t]) ++ ["course.json"]) = some leftover ∧
      (create_template parse .ok jsonW true cwd sd t fs).finalFS.fileData
          ((cwd ++ [t]) ++ ["README.md"]) = some (readmeContent t) ∧
      Msg.warnCourseJson e ∈ (create_template parse .ok jsonW true cwd sd t fs).msgs) := by
  have hred := create_template_ok_readme parse jsonW cwd sd t fs h1 h2
  have hcp := FS.copytree_fileData fs (sd ++ ["canvas-course-template"]) (cwd ++ [t])
    ["course.json"]
  refine ⟨?_, ?_, ?_⟩
  · intro hfd
    rw [hred]
    have hstep : courseJsonStep parse jsonW t (cwd ++ [t])
        (fs.copytree (sd ++ ["canvas-course-template"]) (cwd ++ [t])) =
        (fs.copytree (sd ++ ["canvas-course-template"]) (cwd ++ [t]), []) := by
      simp only [courseJsonStep]
      rw [hcp, hfd]
    rw [hstep]
    simp
  · intro c e hfd hp
    have hstep : courseJsonStep parse jsonW t (cwd ++ [t])
        (fs.copytree (sd ++ ["canvas-course-template"]) (cwd ++ [t])) =
        (fs.copytree (sd ++ ["canvas-course-template"]) (cwd ++ [t]),
         [.updatingCourseJson, .warnCourseJson e]) := by
      simp only [courseJsonStep]
      rw [hcp, hfd]
      simp [hp]
    rw [hred, hstep]
    refine ⟨rfl, ?_, ?_, ?_⟩
    · simp only [RunResult.finalFS]
      rw [FS.writeFile_fileData_ne _ _ _ _
        (append_ne_append_right (cwd ++ [t]) (by decide))]
      rw [hcp, hfd]
    · simp only [RunResult.finalFS]
      exact FS.writeFile_fileData_self _ _ _
    · simp [RunResult.msgs]
  · intro c kvs e leftover hfd hp hw
    subst hw
    have hstep : courseJsonStep parse (.fail e leftover) t (cwd ++ [t])
        (fs.copytree (sd ++ ["canvas-course-template"]) (cwd ++ [t])) =
        ((fs.copytree (sd ++ ["canvas-course-template"]) (cwd ++ [t])).writeFile
           ((cwd ++ [t]) ++ ["course.json"]) leftover,
         [.updatingCourseJson, .warnCourseJson e]) := by
      simp only [courseJsonStep]
      rw [hcp, hfd]
      simp [hp]
    rw [hred, hstep]
    refine ⟨rfl, ?_, ?_, ?_⟩
    · simp only [RunResult.finalFS]
      rw [FS.writeFile_fileData_ne _ _ _ _
        (append_ne_append_right (cwd ++ [t]) (by decide))]
      exact FS.writeFile_fileData_self _ _ _
    · simp only [RunResult.finalFS]
      exact FS.writeFile_fileData_self _ _ _
    · simp [RunResult.msgs]

/-- Witness for C7 (amended), malformed-JSON scenario at a concrete input:
the template `course.json` holds content that `testParse` rejects. -/
theorem claim7_witness :
    (create_template testParse .ok .ok true [] [] "new-course" testFSBad).retVal =
      some true ∧
    (create_template testParse .ok .ok true [] [] "new-course" testFSBad).finalFS.fileData
        ["new-course", "course.json"] = some "not json" ∧
    (create_template testParse .ok .ok true [] [] "new-course" testFSBad).finalFS.fileData
        ["new-course", "README.md"] = some (readmeContent "new-course") ∧
    Msg.warnCourseJson "bad json" ∈
      (create_template testParse .ok .ok true [] [] "new-course" testFSBad).msgs :=
  (claim7_rewrite_failure_behavior testParse .ok [] [] "new-course" testFSBad
    (by decide) (by decide)).2.1 "not json" "bad json" (by decide) rfl

/-- Claim C9: in a run that passes the preconditions and whose copy and
README steps succeed, the generated `README.md` at the target root is the
document `readmeContent t`, which contains the computed display title as a
literal substring and contains `targetName` itself, unmodified, as a
literal substring in its body. -/
theorem claim9_readme_contains
    (parse : String → Except String JObj) (jsonW : JsonWriteOutcome)
    (cwd sd : FPath) (t : String) (fs : FS)
    (h1 : fs.existsPath (cwd ++ [t]) = false)
    (h2 : fs.existsPath (sd ++ ["canvas-course-template"]) = true) :
    (create_template parse .ok jsonW true cwd sd t fs).finalFS.fileData
        ((cwd ++ [t]) ++ ["README.md"]) = some (readmeContent t) ∧
    strInfix (displayTitle t) (readmeContent t) ∧
    strInfix t (readmeContent t) := by
  refine ⟨?_, ?_, ?_⟩
  · rw [create_template_ok_readme parse jsonW cwd sd t fs h1 h2]
    simp only [RunResult.finalFS]
    exact FS.writeFile_fileData_self _ _ _
  · refine ⟨readmePiece0.data,
      (readmePieceA ++ t ++ readmePieceB ++ t ++ readmePieceC).data, ?_⟩
    simp [readmeContent, String.data_append]
  · refine ⟨(readmePiece0 ++ displayTitle t ++ readmePieceA).data,
      (readmePieceB ++ t ++ readmePieceC).data, ?_⟩
    simp [readmeContent, String.data_append]

/-- Witness for C9: the concrete run on `testFS`; the substring facts are
instances of the theorem at `t = "new-course"`. -/
theorem claim9_witness :
    (create_template testParse .ok .ok true [] [] "new-course" testFS).finalFS.fileData
        ["new-course", "README.md"] = some (readmeContent "new-course") ∧
    strInfix (displayTitle "new-course") (readmeContent "new-course") ∧
    strInfix "new-course" (readmeContent "new-course") :=
  claim9_readme_contains testParse .ok [] [] "new-course" testFS
    (by decide) (by decide)

/-- Claim C4 counterexample: the code computes the display title with
Python's `str.title()`, whose word boundaries are all non-cased characters,
not only whitespace.  For `targetName = "abc2def"` the code produces
`"Abc2Def"` (the `d` after the digit `2` is capitalized), while the claim's
whitespace-delimited rule produces `"Abc2def"`. -/
theorem claim4_counterexample :
    displayTitle "abc2def" = "Abc2Def" ∧
    specDisplayTitle "abc2def" = "Abc2def" ∧
    displayTitle "abc2def" ≠ specDisplayTitle "abc2def" := by
  refine ⟨by decide, by decide, by decide⟩

/-- Claim C4 (amended): the display title is computed by replacing every `-`
and every `_` in targetName with a space and then title-casing the result
with word boundaries at every non-letter character: a letter is uppercased
when the preceding character is not a letter (or at the start) and
lowercased otherwise, and non-letter characters pass through — Python
`str.title()` semantics.  In particular `"year9-programming"` yields
`"Year9 Programming"` (and course code `"YEAR9-PROGRAMMING"`). -/
theorem claim4_title_characterization :
    (∀ (t : String) (i : Nat),
      ((displayTitle t).data)[i]? =
        (((sepReplaced t).data)[i]?).map
          (titleChar (prevCasedAt false (sepReplaced t).data i))) ∧
    displayTitle "year9-programming" = "Year9 Programming" ∧
    courseCode "year9-programming" = "YEAR9-PROGRAMMING" := by
  refine ⟨?_, by decide, by decide⟩
  intro t i
  show ((pyTitleAux false (sepReplaced t).data))[i]? = _
  exact pyTitleAux_getElem (sepReplaced t).data false i

/-- Claim C5: the course code is targetName upper-cased verbatim: the value
written at the `course_code` key is `courseCode t`, whose characters are
exactly the characters of `t` mapped through `Char.toUpper`, which leaves
every non-letter (in particular the separators `-` and `_`) untouched.  In
particular `"biology_101"` yields display title `"Biology 101"` and course
code `"BIOLOGY_101"`. -/
theorem claim5_course_code :
    (∀ (t : String) (kvs : JObj),
      lookupKey (updatedCourseData t kvs) "course_code" =
        some (.str (courseCode t))) ∧
    (∀ t : String, (courseCode t).data = t.data.map Char.toUpper) ∧
    (∀ c : Char, c.isAlpha = false → Char.toUpper c = c) ∧
    displayTitle "biology_101" = "Biology 101" ∧
    courseCode "biology_101" = "BIOLOGY_101" := by
  refine ⟨?_, ?_, ?_, by decide, by decide⟩
  · intro t kvs
    exact lookupKey_setKey_self _ _ _
  · intro t
    rfl
  · intro c h
    simp [Char.isAlpha, Char.isLower, Char.isUpper] at h
    have h2 : (97 : Nat) ≤ c.toNat → (122 : Nat) < c.toNat := h.2
    simp only [Char.toUpper]
    split
    · rename_i hc
      omega
    · rfl

/-- Witness for C5: the theorem applied at `t = "biology_101"`, with the
non-letter hypothesis discharged at the separator character `_`. -/
theorem claim5_witness :
    lookupKey (updatedCourseData "biology_101" JObj.nil) "course_code" =
      some (.str (courseCode "biology_101")) ∧
    Char.toUpper '_' = '_' :=
  ⟨claim5_course_code.1 "biology_101" JObj.nil,
   claim5_course_code.2.2.1 '_' (by decide)⟩
